import Mathlib

/-!
# Verification of the whisper-rs safe FFI boundary layer

Shallow embedding of the boundary-layer routines of the `whisper-rs`
repository, and proofs of the specification claims about them.

Embedding conventions:
* Raw C pointers are modelled by `CPtr`: a null flag plus the byte contents
  of the pointed-to memory, given as a total function `Nat → UInt8`
  (offset ↦ byte).  Reading `n` bytes from a non-null pointer
  (`std::slice::from_raw_parts`) becomes `readBytes mem n`.
* Fallible Rust functions returning `Result<T, WhisperError>` become
  `Except WhisperError T`.
* Rust functions that mutate a caller-supplied output slice in place are
  modelled as returning a pair: the `Except` status and the final contents
  of the output buffer (equal to the original buffer whenever nothing was
  written to it).
* `i16` samples are modelled as `Int`; `f32` sample values are modelled as
  `ℚ`.  Every `f32` operation performed by the embedded code on the
  relevant domain (`i16` casts, division by the power of two `32768.0`,
  and the inverse multiplication) is exact in IEEE-754 binary32, so the
  rational model computes exactly the values the Rust code computes.
-/

/-- The error type of the boundary layer (`WhisperError` in the source);
only the variants used by the embedded routines are carried over. -/
inductive WhisperError where
  /-- A pointer expected to be non-null was null. -/
  | NullPointer : WhisperError
  /-- No null terminator found within the bounded scan,
  or the byte view failed `CStr` validation. -/
  | InvalidString : WhisperError
  /-- Bytes were not valid UTF-8 when strict decoding was requested. -/
  | InvalidUtf8 : WhisperError
  /-- A native call reported writing more elements than the destination
  capacity. -/
  | BufferOverflow : WhisperError
  /-- Audio conversion was called with buffers of different lengths. -/
  | InputOutputLengthMismatch (input_len output_len : Nat) : WhisperError
  /-- Stereo-to-mono conversion was given an odd number of samples;
  carries the offending input length. -/
  | HalfSampleMissing (len : Nat) : WhisperError
  /-- The native tokenizer reported that the text could not be processed. -/
  | InvalidText : WhisperError
  /-- The native call itself reported a non-success status. -/
  | NativeFailure (code : Int) : WhisperError
  deriving DecidableEq, Repr

/-- A raw C pointer: either null, or a view of memory whose byte at
offset `i` is `mem i`. -/
structure CPtr where
  isNull : Bool
  mem : Nat → UInt8

/-- `std::slice::from_raw_parts(ptr, len)`: the first `len` bytes at the
pointer, as a list. -/
def readBytes (mem : Nat → UInt8) (len : Nat) : List UInt8 :=
  (List.range len).map mem

/-- `CStr::from_bytes_with_nul`: succeeds exactly when the slice has a
single nul byte and it is the final byte; models the Rust standard
library check.  The wrapper maps its error to `InvalidString`. -/
def from_bytes_with_nul (bs : List UInt8) : Except WhisperError (List UInt8) :=
  match bs.findIdx? (· == 0) with
  | some i => if i + 1 = bs.length then .ok bs else .error .InvalidString
  | none => .error .InvalidString

/-- `c_str_from_ptr_with_limit` (src/utilities.rs:25-40): validates the
pointer is non-null, scans the first `max_len` bytes for a nul
terminator (`InvalidString` if none), then re-reads the bounded slice
including the terminator and runs `CStr::from_bytes_with_nul` on it. -/
def c_str_from_ptr_with_limit (ptr : CPtr) (max_len : Nat) :
    Except WhisperError (List UInt8) :=
  if ptr.isNull then .error .NullPointer
  else
    let bytes := readBytes ptr.mem max_len
    match bytes.findIdx? (· == 0) with
    | none => .error .InvalidString
    | some len =>
      let bounded := readBytes ptr.mem (len + 1)
      from_bytes_with_nul bounded

/-- `convert_integer_to_float_audio` (src/utilities.rs:58-74): checks the
two buffers have equal length (`InputOutputLengthMismatch` otherwise,
with the output buffer untouched), then writes `sample / 32768.0` for
each input sample into the output buffer. -/
def convert_integer_to_float_audio (samples : List Int) (output : List ℚ) :
    Except WhisperError Unit × List ℚ :=
  if samples.length ≠ output.length then
    (.error (.InputOutputLengthMismatch samples.length output.length), output)
  else
    (.ok (), samples.map (fun s => (s : ℚ) / 32768))

/-- `slice::as_chunks::<2>`: the list split into consecutive pairs plus
the remainder (empty or a single element). -/
def as_chunks_2 : List ℚ → List (ℚ × ℚ) × List ℚ
  | a :: b :: rest =>
    let (c, r) := as_chunks_2 rest
    ((a, b) :: c, r)
  | rest => ([], rest)

/-- `convert_stereo_to_mono_audio` (src/utilities.rs:95-113): splits the
input into stereo pairs (`HalfSampleMissing input.len()` if the
remainder of `as_chunks::<2>` is non-empty, i.e. the length is odd),
checks the output length equals the number of pairs
(`InputOutputLengthMismatch` otherwise), then writes `(l + r) / 2.0`
per pair.  Error paths leave the output buffer untouched. -/
def convert_stereo_to_mono_audio (input output : List ℚ) :
    Except WhisperError Unit × List ℚ :=
  match as_chunks_2 input with
  | (chunks, []) =>
    if output.length ≠ chunks.length then
      (.error (.InputOutputLengthMismatch chunks.length output.length), output)
    else
      (.ok (), chunks.map (fun p => (p.1 + p.2) / 2))
  | (_, _ :: _) => (.error (.HalfSampleMissing input.length), output)

/-- A token id (`WhisperTokenId` in the source, a C `int`). -/
def WhisperTokenId : Type := Int

/-- The observable behaviour of one `whisper_tokenize` native call: the
signed count it returns and the token ids it wrote into the buffer
(offset ↦ token).  Both are untrusted input to the wrapper. -/
structure NativeTokenize where
  ret : Int
  written : Nat → Int

/-- Modelled from the spec: `WhisperContext::tokenize` lives in
`whisper_ctx.rs`, which is not under `src/` (only its callers in
`examples/` are).  Per the spec's Buffer-Fill Validator contract (§4.2,
§6 Tokenize): allocate a buffer of capacity `max_tokens`, treat it as
uninitialized, call the native tokenizer; a negative returned count maps
to a domain error ("text could not be processed"); a returned count
greater than the declared capacity fails with `BufferOverflow` rather
than trusting the native value; otherwise exactly the validated count
of elements is marked initialized and returned. -/
def tokenize (n : NativeTokenize) (max_tokens : Nat) :
    Except WhisperError (List Int) :=
  if n.ret < 0 then .error .InvalidText
  else if max_tokens < n.ret.toNat then .error .BufferOverflow
  else .ok ((List.range n.ret.toNat).map n.written)

/-- Modelled from the spec: `FullParams` and its field setters live in
`whisper_params.rs`, which is not under `src/` (only its callers in
`examples/` are).  Per the spec's Owned-Parameter Store contract (§4.3):
the Parameter Set holds a host-owned copy of each string field the
native engine will read via raw pointer.  `language` is the installed
owned copy of the language tag (none when the field is cleared or was
never set); `liveAllocs` counts the outstanding owned-string
allocations attributable to this field, so leaks are observable in the
model. -/
structure FullParams where
  language : Option String
  liveAllocs : Nat

/-- Modelled from the spec: a fresh Parameter Set (`FullParams::new`)
with no language installed and no outstanding allocations. -/
def FullParams.new : FullParams := ⟨none, 0⟩

/-- Modelled from the spec: `set_language` (§4.3).  Re-setting the field
releases the previous owned copy before installing the new one;
clearing the field (`none`) drops the owned copy and installs no new
allocation. -/
def set_language (p : FullParams) (v : Option String) : FullParams :=
  { language := v
    liveAllocs :=
      (p.liveAllocs - (if p.language.isSome then 1 else 0)) +
        (if v.isSome then 1 else 0) }

/-- Modelled from the spec: dropping the Parameter Set releases the
owned copy currently installed in the language field; the result is the
number of outstanding owned-string allocations attributable to that
field after the drop. -/
def FullParams.dropAllocs (p : FullParams) : Nat :=
  p.liveAllocs - (if p.language.isSome then 1 else 0)

/-- What the native engine exposes to one `WhisperToken`'s text
accessors: the pointer `whisper_full_get_token_text_from_state` returns
for this token.  The pointer is untrusted input. -/
structure TokenTextSource where
  text_ptr : CPtr

/-- `WhisperToken::to_raw_cstr` (src/whisper_state/token.rs:91-103):
obtains the native text pointer and validates it with
`c_str_from_ptr_with_limit(ptr, 1024)`. -/
def to_raw_cstr (t : TokenTextSource) : Except WhisperError (List UInt8) :=
  c_str_from_ptr_with_limit t.text_ptr 1024

/-- `WhisperToken::to_str_lossy` (src/whisper_state/token.rs:144-146):
lossy UTF-8 decoding of the validated C string.  Lossy decoding never
fails, so the string content is modelled by the raw bytes without the
terminator; only the error behaviour matters to the claims. -/
def to_str_lossy (t : TokenTextSource) : Except WhisperError (List UInt8) :=
  (to_raw_cstr t).map List.dropLast

/-- `impl fmt::Display for WhisperToken`
(src/whisper_state/token.rs:199-208): writes `to_str_lossy()` after
`.expect("got null pointer during string write")`.  The `expect` call
aborts the process when `to_str_lossy` fails, modelled as `none`;
`some s` models a successful write of `s`. -/
def display_fmt (t : TokenTextSource) : Option (List UInt8) :=
  match to_str_lossy t with
  | .ok s => some s
  | .error _ => none

example : convert_integer_to_float_audio [1, 2] [0] =
    (.error (.InputOutputLengthMismatch 2 1), [0]) := rfl

example : convert_stereo_to_mono_audio [1, 2, 3] [] =
    (.error (.HalfSampleMissing 3), []) := rfl

example : convert_stereo_to_mono_audio [1, 3] [7] = (.ok (), [2]) := by
  simp [convert_stereo_to_mono_audio, as_chunks_2]
  norm_num

example : c_str_from_ptr_with_limit ⟨true, fun _ => 65⟩ 4 =
    .error .NullPointer := rfl

example : c_str_from_ptr_with_limit ⟨false, fun _ => 65⟩ 4 =
    .error .InvalidString := rfl

example : c_str_from_ptr_with_limit ⟨false, fun i => if i = 2 then 0 else 65⟩ 5 =
    .ok [65, 65, 0] := rfl

/-! ## Helper lemmas -/

theorem readBytes_length (mem : Nat → UInt8) (n : Nat) :
    (readBytes mem n).length = n := by
  simp [readBytes]

theorem findIdx?_readBytes_eq_none (mem : Nat → UInt8) (n : Nat) :
    (readBytes mem n).findIdx? (· == 0) = none ↔ ∀ i < n, mem i ≠ 0 := by
  rw [List.findIdx?_eq_none_iff]
  simp [readBytes]

theorem findIdx?_readBytes_eq_some (mem : Nat → UInt8) (n i : Nat) :
    (readBytes mem n).findIdx? (· == 0) = some i ↔
      i < n ∧ mem i = 0 ∧ ∀ j < i, mem j ≠ 0 := by
  rw [List.findIdx?_eq_some_iff_findIdx_eq]
  simp only [readBytes, List.length_map, List.length_range]
  constructor
  · rintro ⟨hlt, hfind⟩
    rw [List.findIdx_eq (by simpa using hlt)] at hfind
    simp only [List.getElem_map, List.getElem_range, beq_iff_eq] at hfind
    refine ⟨hlt, hfind.1, fun j hj => ?_⟩
    have := hfind.2 j hj
    simpa using this
  · rintro ⟨hlt, h0, hj⟩
    refine ⟨hlt, ?_⟩
    rw [List.findIdx_eq (by simpa using hlt)]
    simp only [List.getElem_map, List.getElem_range, beq_iff_eq]
    exact ⟨h0, fun j hji => by simpa using hj j hji⟩

theorem readBytes_succ (mem : Nat → UInt8) (n : Nat) :
    readBytes mem (n + 1) = readBytes mem n ++ [mem n] := by
  simp [readBytes, List.range_succ]

theorem from_bytes_with_nul_first_zero (mem : Nat → UInt8) (i : Nat)
    (h0 : mem i = 0) (hj : ∀ j < i, mem j ≠ 0) :
    from_bytes_with_nul (readBytes mem (i + 1)) = .ok (readBytes mem (i + 1)) := by
  unfold from_bytes_with_nul
  rw [(findIdx?_readBytes_eq_some mem (i + 1) i).mpr ⟨Nat.lt_succ_self i, h0, hj⟩]
  simp [readBytes_length]

theorem c_str_ok_of_first_zero (mem : Nat → UInt8) (max_len i : Nat)
    (hi : i < max_len) (h0 : mem i = 0) (hj : ∀ j < i, mem j ≠ 0) :
    c_str_from_ptr_with_limit ⟨false, mem⟩ max_len = .ok (readBytes mem (i + 1)) := by
  unfold c_str_from_ptr_with_limit
  simp only [Bool.false_eq_true, if_false]
  rw [(findIdx?_readBytes_eq_some mem max_len i).mpr ⟨hi, h0, hj⟩]
  exact from_bytes_with_nul_first_zero mem i h0 hj

theorem c_str_invalid_iff_no_zero (mem : Nat → UInt8) (max_len : Nat) :
    c_str_from_ptr_with_limit ⟨false, mem⟩ max_len = .error .InvalidString ↔
      (readBytes mem max_len).findIdx? (· == 0) = none := by
  unfold c_str_from_ptr_with_limit
  simp only [Bool.false_eq_true, if_false]
  cases hf : (readBytes mem max_len).findIdx? (· == 0) with
  | none => simp
  | some len =>
    obtain ⟨hlt, h0, hj⟩ := (findIdx?_readBytes_eq_some mem max_len len).mp hf
    show from_bytes_with_nul (readBytes mem (len + 1)) = .error .InvalidString ↔
      some len = none
    rw [from_bytes_with_nul_first_zero mem len h0 hj]
    simp

theorem as_chunks_2_cons_cons (a b : ℚ) (rest : List ℚ) :
    as_chunks_2 (a :: b :: rest) =
      ((a, b) :: (as_chunks_2 rest).1, (as_chunks_2 rest).2) := by
  cases h : as_chunks_2 rest with
  | mk c r =>
    rw [as_chunks_2.eq_def]
    simp [h]

theorem as_chunks_2_snd_nil_iff (l : List ℚ) :
    (as_chunks_2 l).2 = [] ↔ l.length % 2 = 0 := by
  induction l using as_chunks_2.induct with
  | case1 a b rest c r hcr ih =>
    rw [as_chunks_2_cons_cons]
    simp only [List.length_cons]
    rw [show rest.length + 1 + 1 = rest.length + 2 from rfl]
    simpa [Nat.add_mod_right] using ih
  | case2 rest h =>
    cases rest with
    | nil => simp [as_chunks_2]
    | cons a rest' =>
      cases rest' with
      | nil => simp [as_chunks_2]
      | cons b rest'' => exact absurd rfl (h a b rest'')

theorem set_language_foldl_invariant (vs : List (Option String)) (p : FullParams)
    (hp : p.liveAllocs = if p.language.isSome then 1 else 0) :
    (vs.foldl set_language p).liveAllocs =
      if (vs.foldl set_language p).language.isSome then 1 else 0 := by
  induction vs generalizing p with
  | nil => exact hp
  | cons v vs ih =>
    apply ih
    simp only [set_language, hp]
    cases p.language <;> cases v <;> simp

/-! ## Claim theorems -/

/-- C1: For every native buffer-fill call (in particular `tokenize` with a
declared capacity `max_tokens`), if the native call reports a written
count greater than the declared capacity, the wrapper fails with
`BufferOverflow`; no element beyond the capacity is ever marked
readable: every successful result has at most `max_tokens` tokens. -/
theorem tokenize_validates_native_count (n : NativeTokenize) (max_tokens : Nat) :
    (max_tokens < n.ret.toNat → tokenize n max_tokens = .error .BufferOverflow) ∧
    ∀ toks, tokenize n max_tokens = .ok toks → toks.length ≤ max_tokens := by
  constructor
  · intro hov
    have hret : ¬n.ret < 0 := by
      intro hneg
      rw [Int.toNat_of_nonpos (le_of_lt hneg)] at hov
      omega
    simp [tokenize, hret, hov]
  · intro toks h
    by_cases h1 : n.ret < 0
    · simp [tokenize, h1] at h
    · by_cases h2 : max_tokens < n.ret.toNat
      · simp [tokenize, h1, h2] at h
      · simp [tokenize, h1, h2] at h
        rw [← h]
        simp
        omega

theorem tokenize_validates_native_count_witness :
    tokenize ⟨5, fun _ => 0⟩ 1 = .error .BufferOverflow ∧
    ([0, 0] : List Int).length ≤ 2 :=
  ⟨(tokenize_validates_native_count ⟨5, fun _ => 0⟩ 1).1 (by decide),
   (tokenize_validates_native_count ⟨2, fun _ => 0⟩ 2).2 [0, 0] rfl⟩

/-- C2: for every `max_len`, calling `c_str_from_ptr_with_limit` with a
null pointer returns the `NullPointer` error; the result does not depend
on the pointed-to memory, so the pointer is never dereferenced. -/
theorem c_str_null_pointer_rejected (mem : Nat → UInt8) (max_len : Nat) :
    c_str_from_ptr_with_limit ⟨true, mem⟩ max_len = .error .NullPointer := rfl

/-- C3: for every non-null pointer and every `max_len`,
`c_str_from_ptr_with_limit` fails with `InvalidString` iff no zero byte
occurs among the first `max_len` bytes; when the first zero byte is at
position `i < max_len`, the call succeeds and returns bytes `0..i`
inclusive (the terminator included). -/
theorem c_str_terminator_scan_spec (mem : Nat → UInt8) (max_len : Nat) :
    (c_str_from_ptr_with_limit ⟨false, mem⟩ max_len = .error .InvalidString ↔
      ∀ i < max_len, mem i ≠ 0) ∧
    ∀ i < max_len, mem i = 0 → (∀ j < i, mem j ≠ 0) →
      c_str_from_ptr_with_limit ⟨false, mem⟩ max_len = .ok (readBytes mem (i + 1)) :=
  ⟨(c_str_invalid_iff_no_zero mem max_len).trans
      (findIdx?_readBytes_eq_none mem max_len),
   fun i hi h0 hj => c_str_ok_of_first_zero mem max_len i hi h0 hj⟩

theorem c_str_terminator_scan_spec_witness :
    c_str_from_ptr_with_limit ⟨false, fun i => if i = 2 then 0 else 65⟩ 5 =
      .ok (readBytes (fun i => if i = 2 then 0 else 65) 3) :=
  (c_str_terminator_scan_spec (fun i => if i = 2 then 0 else 65) 5).2 2
    (by decide) (by decide) (by decide)

/-- C4: setting the language field any number of times with any values
leaves exactly one owned copy installed (none if the field is cleared),
never more than one outstanding allocation, and dropping the Parameter
Set afterwards leaves zero outstanding owned-string allocations
attributable to the field; each setter installs exactly the given
value. -/
theorem set_language_single_owned_copy (vs : List (Option String)) :
    (vs.foldl set_language FullParams.new).liveAllocs =
      (if (vs.foldl set_language FullParams.new).language.isSome then 1 else 0) ∧
    (vs.foldl set_language FullParams.new).liveAllocs ≤ 1 ∧
    FullParams.dropAllocs (vs.foldl set_language FullParams.new) = 0 ∧
    ∀ (p : FullParams) (v : Option String), (set_language p v).language = v := by
  have h := set_language_foldl_invariant vs FullParams.new rfl
  refine ⟨h, ?_, ?_, fun p v => rfl⟩
  · rw [h]; split <;> omega
  · unfold FullParams.dropAllocs
    rw [h]; split <;> simp

/-- C5 counterexample: the claim says no operation of the layer panics,
but `impl fmt::Display for WhisperToken` aborts the process (via
`.expect`) when the native token text pointer is null: at this concrete
input, `display_fmt` is `none` (panic), not a typed result. -/
theorem display_fmt_panics_on_null_text :
    display_fmt ⟨⟨true, fun _ => 0⟩⟩ = none := rfl

/-- C5 amended: the token text accessors surface failures as typed
results, and `WhisperToken`'s `Display` implementation is the (self-
documented) exception: it writes the lossy text exactly when
`to_str_lossy` succeeds, and panics exactly when `to_str_lossy` fails
(e.g. on a null native text pointer). -/
theorem display_fmt_panic_iff_lossy_error (t : TokenTextSource) :
    (display_fmt t = none ↔ ∃ e, to_str_lossy t = .error e) ∧
    ∀ s, to_str_lossy t = .ok s → display_fmt t = some s := by
  unfold display_fmt
  cases h : to_str_lossy t with
  | ok s =>
    constructor
    · simp
    · intro s' hs'
      cases hs'
      rfl
  | error e =>
    constructor
    · simp
    · intro s' hs'
      cases hs'

set_option maxRecDepth 8000 in
theorem display_fmt_panic_iff_lossy_error_witness :
    display_fmt ⟨⟨false, fun i => if i = 1 then 0 else 65⟩⟩ = some [65] :=
  (display_fmt_panic_iff_lossy_error ⟨⟨false, fun i => if i = 1 then 0 else 65⟩⟩).2
    [65] rfl

/-- C6: for every input of odd length, `convert_stereo_to_mono_audio`
fails with `HalfSampleMissing` carrying exactly that odd input length,
regardless of the output buffer, which is left unchanged. -/
theorem stereo_to_mono_odd_length_fails (input output : List ℚ)
    (h : input.length % 2 = 1) :
    convert_stereo_to_mono_audio input output =
      (.error (.HalfSampleMissing input.length), output) := by
  unfold convert_stereo_to_mono_audio
  cases hc : as_chunks_2 input with
  | mk chunks r =>
    cases r with
    | nil =>
      exfalso
      have h2 : (as_chunks_2 input).2 = [] := by rw [hc]
      rw [as_chunks_2_snd_nil_iff] at h2
      omega
    | cons x r' => rfl

theorem stereo_to_mono_odd_length_fails_witness :
    convert_stereo_to_mono_audio [0, 0, 0, 0, 0, 0, 0, 0, 0, 0, 0] [] =
      (.error (.HalfSampleMissing 11), []) :=
  stereo_to_mono_odd_length_fails [0, 0, 0, 0, 0, 0, 0, 0, 0, 0, 0] [] (by decide)

/-- C7: for every pair of slices whose lengths differ,
`convert_integer_to_float_audio` fails with
`InputOutputLengthMismatch` carrying both lengths, the output buffer
left unchanged. -/
theorem int_to_float_length_mismatch_fails (samples : List Int) (output : List ℚ)
    (h : samples.length ≠ output.length) :
    convert_integer_to_float_audio samples output =
      (.error (.InputOutputLengthMismatch samples.length output.length), output) := by
  simp [convert_integer_to_float_audio, h]

theorem int_to_float_length_mismatch_fails_witness :
    convert_integer_to_float_audio [0, 0, 0, 0, 0, 0, 0, 0, 0, 0]
        [0, 0, 0, 0, 0, 0, 0, 0, 0] =
      (.error (.InputOutputLengthMismatch 10 9), [0, 0, 0, 0, 0, 0, 0, 0, 0]) :=
  int_to_float_length_mismatch_fails [0, 0, 0, 0, 0, 0, 0, 0, 0, 0]
    [0, 0, 0, 0, 0, 0, 0, 0, 0] (by decide)

/-- C8: for every `i16` sample slice and equal-length output buffer,
`convert_integer_to_float_audio` followed by the inverse scaling
(multiplying each output element by 32768) reproduces the original
samples exactly.  All the `f32` operations involved are exact on this
domain (an `i16` cast and division/multiplication by the power of two
`32768`), so the rational model computes the same values as the code. -/
theorem int_to_float_roundtrip_exact (samples : List Int) (output : List ℚ)
    (hlen : samples.length = output.length)
    (_hrange : ∀ s ∈ samples, -32768 ≤ s ∧ s < 32768) :
    (convert_integer_to_float_audio samples output).2.map (fun x => x * 32768) =
      samples.map (fun s => (s : ℚ)) := by
  simp only [convert_integer_to_float_audio, hlen, ne_eq, not_true_eq_false, if_false]
  rw [List.map_map]
  congr 1
  funext s
  simp [Function.comp]

theorem int_to_float_roundtrip_exact_witness :
    (convert_integer_to_float_audio [0, 1, -32768, 32767] [0, 0, 0, 0]).2.map
        (fun x => x * 32768) =
      ([0, 1, -32768, 32767] : List Int).map (fun s => (s : ℚ)) :=
  int_to_float_roundtrip_exact [0, 1, -32768, 32767] [0, 0, 0, 0]
    (by decide) (by decide)

/-- C9: whenever `convert_integer_to_float_audio` or
`convert_stereo_to_mono_audio` returns an error, the output buffer is
left completely unchanged: all validation happens before any element is
written. -/
theorem conversion_errors_leave_output_unchanged :
    (∀ (samples : List Int) (output : List ℚ) (e : WhisperError),
      (convert_integer_to_float_audio samples output).1 = .error e →
      (convert_integer_to_float_audio samples output).2 = output) ∧
    ∀ (input output : List ℚ) (e : WhisperError),
      (convert_stereo_to_mono_audio input output).1 = .error e →
      (convert_stereo_to_mono_audio input output).2 = output := by
  constructor
  · intro samples output e h
    by_cases hl : samples.length = output.length
    · simp [convert_integer_to_float_audio, hl] at h
    · simp [convert_integer_to_float_audio, hl]
  · intro input output e
    unfold convert_stereo_to_mono_audio
    cases hc : as_chunks_2 input with
    | mk chunks r =>
      cases r with
      | nil =>
        by_cases hl : output.length = chunks.length
        · simp [hl]
        · simp [hl]
      | cons x r' => simp

theorem conversion_errors_leave_output_unchanged_witness :
    (convert_integer_to_float_audio [1] []).2 = [] ∧
    (convert_stereo_to_mono_audio [1] [0]).2 = [0] :=
  ⟨conversion_errors_leave_output_unchanged.1 [1] []
      (.InputOutputLengthMismatch 1 0) rfl,
   conversion_errors_leave_output_unchanged.2 [1] [0]
      (.HalfSampleMissing 1) rfl⟩

/-- C10: for every non-null pointer whose first `max_len` bytes contain a
zero byte, the final `CStr::from_bytes_with_nul` validation cannot fail:
the call succeeds, the result passes that validation, and the returned
C string has byte length (terminator included) at most `max_len`, ends
with the terminator, and has no interior zero byte. -/
theorem c_str_final_validation_unreachable (mem : Nat → UInt8) (max_len : Nat)
    (h : ∃ i, i < max_len ∧ mem i = 0) :
    ∃ cs, c_str_from_ptr_with_limit ⟨false, mem⟩ max_len = .ok cs ∧
      from_bytes_with_nul cs = .ok cs ∧
      cs.length ≤ max_len ∧ cs.getLast? = some 0 ∧
      ∀ b ∈ cs.dropLast, b ≠ 0 := by
  cases hf : (readBytes mem max_len).findIdx? (· == 0) with
  | none =>
    exfalso
    obtain ⟨i, hi, h0⟩ := h
    exact (findIdx?_readBytes_eq_none mem max_len).mp hf i hi h0
  | some i =>
    obtain ⟨hlt, h0, hj⟩ := (findIdx?_readBytes_eq_some mem max_len i).mp hf
    refine ⟨readBytes mem (i + 1), c_str_ok_of_first_zero mem max_len i hlt h0 hj,
      from_bytes_with_nul_first_zero mem i h0 hj, ?_, ?_, ?_⟩
    · rw [readBytes_length]; omega
    · rw [readBytes_succ, List.getLast?_concat, h0]
    · rw [readBytes_succ, List.dropLast_concat]
      intro b hb
      simp only [readBytes, List.mem_map, List.mem_range] at hb
      obtain ⟨j, hji, rfl⟩ := hb
      exact hj j hji

theorem c_str_final_validation_unreachable_witness :
    ∃ cs, c_str_from_ptr_with_limit ⟨false, fun i => if i = 2 then 0 else 65⟩ 5 =
        .ok cs ∧
      from_bytes_with_nul cs = .ok cs ∧
      cs.length ≤ 5 ∧ cs.getLast? = some 0 ∧
      ∀ b ∈ cs.dropLast, b ≠ 0 :=
  c_str_final_validation_unreachable (fun i => if i = 2 then 0 else 65) 5
    ⟨2, by decide, by decide⟩
